import Mathlib

/-!
Verification of the macro aggregation and day-boundary accounting engine of
the grocy extension repository.  The Python sources under
`lib/macro_tracking/day_utils.py`, `grocy/lib/macro_tracking/macro_aggregator.py`,
`grocy/lib/macro_tracking/macro_db.py` and `grocy/lib/integrations/macros.py`
are shallowly embedded below: pure functions become Lean functions, the
external collaborators (the Grocy HTTP client and the Postgres ledger) become
records of fallible operations (`Except String`), Python floats become `ℚ`,
and Python ints become `ℤ`/`ℕ`.
-/

/-- Python `int(x)` applied to a float: truncation toward zero. -/
def pyInt (q : ℚ) : ℤ := if 0 ≤ q then ⌊q⌋ else ⌈q⌉

/-- Round to the nearest integer, ties to even — the idealization of Python's
`round(x)` on a real value. -/
def roundHalfEven (q : ℚ) : ℤ :=
  if q - ⌊q⌋ < 1/2 then ⌊q⌋
  else if 1/2 < q - ⌊q⌋ then ⌊q⌋ + 1
  else if ⌊q⌋ % 2 = 0 then ⌊q⌋ else ⌊q⌋ + 1

/-- Python `round(x, 2)`: round to two decimal places. -/
def round2 (q : ℚ) : ℚ := (roundHalfEven (q * 100) : ℚ) / 100

/-! ## Calendar dates (`datetime.date` component of naive datetimes) -/

/-- A proleptic Gregorian calendar date, as held by a Python `datetime`. -/
structure Date where
  year : ℤ
  month : ℕ
  day : ℕ
deriving DecidableEq

/-- Gregorian leap-year rule (Python `calendar`/`datetime` semantics). -/
def isLeap (y : ℤ) : Bool := y % 4 == 0 && (y % 100 != 0 || y % 400 == 0)

def daysInMonth (y : ℤ) (m : ℕ) : ℕ :=
  if m = 2 then (if isLeap y then 29 else 28)
  else if m = 4 ∨ m = 6 ∨ m = 9 ∨ m = 11 then 30
  else 31

def validDate (d : Date) : Prop :=
  1 ≤ d.month ∧ d.month ≤ 12 ∧ 1 ≤ d.day ∧ d.day ≤ daysInMonth d.year d.month

instance (d : Date) : Decidable (validDate d) := by
  unfold validDate; exact inferInstance

/-- The previous calendar date (what `dt - timedelta(days=1)` does to the date
of a naive datetime). -/
def prevDate (d : Date) : Date :=
  if 2 ≤ d.day then ⟨d.year, d.month, d.day - 1⟩
  else if 2 ≤ d.month then ⟨d.year, d.month - 1, daysInMonth d.year (d.month - 1)⟩
  else ⟨d.year - 1, 12, 31⟩

/-- The next calendar date (what `dt + timedelta(days=1)` does to the date of
a naive datetime). -/
def nextDate (d : Date) : Date :=
  if d.day < daysInMonth d.year d.month then ⟨d.year, d.month, d.day + 1⟩
  else if d.month < 12 then ⟨d.year, d.month + 1, 1⟩
  else ⟨d.year + 1, 1, 1⟩

def padNat (width n : ℕ) : String :=
  let s := toString n
  if s.length < width then String.mk (List.replicate (width - s.length) '0') ++ s else s

/-- `dt.strftime("%Y-%m-%d")` for nonnegative years. -/
def formatDate (d : Date) : String :=
  padNat 4 d.year.toNat ++ "-" ++ padNat 2 d.month ++ "-" ++ padNat 2 d.day

/-! ## Naive datetimes -/

/-- A naive Python `datetime`: calendar date plus wall-clock time of day.
`second` is rational so that microseconds are representable. -/
structure DateTime where
  date : Date
  hour : ℕ
  minute : ℕ
  second : ℚ
deriving DecidableEq

/-- Lexicographic strict order on dates — how Python compares `date` values. -/
def Date.lt (a b : Date) : Prop :=
  a.year < b.year ∨ (a.year = b.year ∧
    (a.month < b.month ∨ (a.month = b.month ∧ a.day < b.day)))

instance (a b : Date) : Decidable (Date.lt a b) := by
  unfold Date.lt; exact inferInstance

def timeLE (h1 m1 : ℕ) (s1 : ℚ) (h2 m2 : ℕ) (s2 : ℚ) : Prop :=
  h1 < h2 ∨ (h1 = h2 ∧ (m1 < m2 ∨ (m1 = m2 ∧ s1 ≤ s2)))

def timeLT (h1 m1 : ℕ) (s1 : ℚ) (h2 m2 : ℕ) (s2 : ℚ) : Prop :=
  h1 < h2 ∨ (h1 = h2 ∧ (m1 < m2 ∨ (m1 = m2 ∧ s1 < s2)))

instance (h1 m1 : ℕ) (s1 : ℚ) (h2 m2 : ℕ) (s2 : ℚ) :
    Decidable (timeLE h1 m1 s1 h2 m2 s2) := by
  unfold timeLE; exact inferInstance

instance (h1 m1 : ℕ) (s1 : ℚ) (h2 m2 : ℕ) (s2 : ℚ) :
    Decidable (timeLT h1 m1 s1 h2 m2 s2) := by
  unfold timeLT; exact inferInstance

/-- Lexicographic `<=` on naive datetimes — how Python compares them. -/
def DateTime.le (a b : DateTime) : Prop :=
  Date.lt a.date b.date ∨ (a.date = b.date ∧
    timeLE a.hour a.minute a.second b.hour b.minute b.second)

/-- Lexicographic `<` on naive datetimes. -/
def DateTime.ltS (a b : DateTime) : Prop :=
  Date.lt a.date b.date ∨ (a.date = b.date ∧
    timeLT a.hour a.minute a.second b.hour b.minute b.second)

instance (a b : DateTime) : Decidable (DateTime.le a b) := by
  unfold DateTime.le; exact inferInstance

instance (a b : DateTime) : Decidable (DateTime.ltS a b) := by
  unfold DateTime.ltS; exact inferInstance

/-- `dt - timedelta(days=1)` on a naive datetime: the time of day is
unchanged and the date moves to the previous calendar date. -/
def subOneDayDT (t : DateTime) : DateTime :=
  ⟨prevDate t.date, t.hour, t.minute, t.second⟩

/-- `dt - timedelta(seconds=1)` on a naive datetime, with borrowing across
minute/hour/date boundaries. -/
def minusOneSecondDT (t : DateTime) : DateTime :=
  if 1 ≤ t.second then ⟨t.date, t.hour, t.minute, t.second - 1⟩
  else if 1 ≤ t.minute then ⟨t.date, t.hour, t.minute - 1, t.second + 59⟩
  else if 1 ≤ t.hour then ⟨t.date, t.hour - 1, 59, t.second + 59⟩
  else ⟨prevDate t.date, 23, 59, t.second + 59⟩

/-! ## `day_utils.py` -/

/-- `day_utils.get_current_day_timestamp`, parameterized by the current
wall-clock time and the resolved start hour (the source reads both from the
ambient environment). -/
def get_current_day_timestamp (now : DateTime) (start_hour : ℕ) : String :=
  if now.hour < start_hour then formatDate (subOneDayDT now).date
  else formatDate now.date

/-- `day_utils.get_datetime_range_for_day`, parameterized by the resolved
start hour.  The day string has been parsed into a `Date`. -/
def get_datetime_range_for_day (day : Date) (start_hour : ℕ) : DateTime × DateTime :=
  (⟨day, start_hour, 0, 0⟩, minusOneSecondDT ⟨nextDate day, start_hour, 0, 0⟩)

/-- `day_utils.is_datetime_in_day`: inclusive membership in the day's range. -/
def is_datetime_in_day (dt : DateTime) (day : Date) (start_hour : ℕ) : Bool :=
  decide (DateTime.le (get_datetime_range_for_day day start_hour).1 dt ∧
          DateTime.le dt (get_datetime_range_for_day day start_hour).2)

/-! ### Order lemmas for dates and datetimes -/

theorem Date.lt_asymm2 {a b : Date} (h : Date.lt a b) : ¬ Date.lt b a := by
  unfold Date.lt at h ⊢; omega

theorem Date.lt_ne {a b : Date} (h : Date.lt a b) : a ≠ b := by
  intro he; subst he; unfold Date.lt at h; omega

theorem Date.lt_irrefl2 (a : Date) : ¬ Date.lt a a := by
  unfold Date.lt; omega

theorem timeLE_refl (h m : ℕ) (s : ℚ) : timeLE h m s h m s :=
  Or.inr ⟨rfl, Or.inr ⟨rfl, le_refl s⟩⟩

theorem DateTime.le_refl2 (a : DateTime) : DateTime.le a a :=
  Or.inr ⟨rfl, timeLE_refl a.hour a.minute a.second⟩

theorem timeLT_not_timeLE {h1 m1 : ℕ} {s1 : ℚ} {h2 m2 : ℕ} {s2 : ℚ}
    (h : timeLT h1 m1 s1 h2 m2 s2) : ¬ timeLE h2 m2 s2 h1 m1 s1 := by
  intro hc
  rcases h with h | ⟨eh, h⟩
  · rcases hc with hc | ⟨ehc, _⟩
    · omega
    · omega
  · rcases hc with hc | ⟨_, hc⟩
    · omega
    · rcases h with h | ⟨em, h⟩
      · rcases hc with hc | ⟨emc, _⟩
        · omega
        · omega
      · rcases hc with hc | ⟨_, hc⟩
        · omega
        · exact absurd hc (not_le.mpr h)

theorem dt_ltS_not_le {a b : DateTime} (h : DateTime.ltS a b) : ¬ DateTime.le b a := by
  intro hc
  rcases h with h | ⟨eh, h⟩
  · rcases hc with hc | ⟨ehc, _⟩
    · exact Date.lt_asymm2 h hc
    · exact Date.lt_ne h ehc.symm
  · rcases hc with hc | ⟨_, hc⟩
    · exact Date.lt_ne hc eh.symm
    · rw [eh] at *
      exact timeLT_not_timeLE h hc

theorem date_lt_nextDate (d : Date) : Date.lt d (nextDate d) := by
  obtain ⟨y, m, dd⟩ := d
  show Date.lt ⟨y, m, dd⟩
    (if dd < daysInMonth y m then ⟨y, m, dd + 1⟩
     else if m < 12 then ⟨y, m + 1, 1⟩ else ⟨y + 1, 1, 1⟩)
  by_cases h1 : dd < daysInMonth y m
  · rw [if_pos h1]
    exact Or.inr ⟨rfl, Or.inr ⟨rfl, Nat.lt_succ_self dd⟩⟩
  · rw [if_neg h1]
    by_cases h2 : m < 12
    · rw [if_pos h2]
      exact Or.inr ⟨rfl, Or.inl (Nat.lt_succ_self m)⟩
    · rw [if_neg h2]
      exact Or.inl (show y < y + 1 by omega)

theorem prevDate_lt_date (d : Date) : Date.lt (prevDate d) d := by
  obtain ⟨y, m, dd⟩ := d
  show Date.lt
    (if 2 ≤ dd then ⟨y, m, dd - 1⟩
     else if 2 ≤ m then ⟨y, m - 1, daysInMonth y (m - 1)⟩ else ⟨y - 1, 12, 31⟩)
    ⟨y, m, dd⟩
  by_cases h1 : 2 ≤ dd
  · rw [if_pos h1]
    exact Or.inr ⟨rfl, Or.inr ⟨rfl, show dd - 1 < dd by omega⟩⟩
  · rw [if_neg h1]
    by_cases h2 : 2 ≤ m
    · rw [if_pos h2]
      exact Or.inr ⟨rfl, Or.inl (show m - 1 < m by omega)⟩
    · rw [if_neg h2]
      exact Or.inl (show y - 1 < y by omega)

theorem daysInMonth_pos (y : ℤ) (m : ℕ) : 1 ≤ daysInMonth y m := by
  unfold daysInMonth
  split
  · split <;> omega
  · split <;> omega

theorem prevDate_nextDate {d : Date} (hv : validDate d) : prevDate (nextDate d) = d := by
  obtain ⟨y, m, dd⟩ := d
  obtain ⟨hm1', hm2', hd1', hd2'⟩ := hv
  have hm1 : 1 ≤ m := hm1'
  have hm2 : m ≤ 12 := hm2'
  have hd1 : 1 ≤ dd := hd1'
  have hd2 : dd ≤ daysInMonth y m := hd2'
  show prevDate
    (if dd < daysInMonth y m then ⟨y, m, dd + 1⟩
     else if m < 12 then ⟨y, m + 1, 1⟩ else ⟨y + 1, 1, 1⟩) = ⟨y, m, dd⟩
  by_cases h1 : dd < daysInMonth y m
  · rw [if_pos h1]
    show (if 2 ≤ dd + 1 then (⟨y, m, dd + 1 - 1⟩ : Date)
          else if 2 ≤ m then ⟨y, m - 1, daysInMonth y (m - 1)⟩
          else ⟨y - 1, 12, 31⟩) = ⟨y, m, dd⟩
    rw [if_pos (by omega)]
    simp only [Nat.add_sub_cancel]
  · rw [if_neg h1]
    by_cases h2 : m < 12
    · rw [if_pos h2]
      show (if 2 ≤ 1 then (⟨y, m + 1, 0⟩ : Date)
            else if 2 ≤ m + 1 then ⟨y, m + 1 - 1, daysInMonth y (m + 1 - 1)⟩
            else ⟨y - 1, 12, 31⟩) = ⟨y, m, dd⟩
      rw [if_neg (by omega), if_pos (by omega)]
      have hdd : dd = daysInMonth y m := by omega
      simp only [Nat.add_sub_cancel]
      rw [hdd]
    · rw [if_neg h2]
      show (if 2 ≤ 1 then (⟨y + 1, 1, 0⟩ : Date)
            else if 2 ≤ 1 then ⟨y + 1, 0, daysInMonth (y + 1) 0⟩
            else ⟨y + 1 - 1, 12, 31⟩) = ⟨y, m, dd⟩
      rw [if_neg (by omega), if_neg (by omega)]
      have hm12 : m = 12 := by omega
      have hdim : daysInMonth y 12 = 31 := by unfold daysInMonth; simp
      have hdd : dd = 31 := by
        rw [hm12] at h1 hd2
        rw [hdim] at h1 hd2
        omega
      simp only [add_sub_cancel_right]
      rw [hm12, hdd]

/-! ### Day-boundary claims -/

/-- C2: for a fixed configured start hour `H`, `get_current_day_timestamp`
called at wall-clock time `t` returns the calendar date of `t` minus one day
whenever `t`'s hour is strictly less than `H`, and the calendar date of `t`
whenever `t`'s hour is at least `H`; in particular with `H = 6`,
2025-01-15T05:30 gives "2025-01-14" and 2025-01-15T06:00 gives "2025-01-15". -/
theorem day_boundary_shift :
    (∀ (t : DateTime) (H : ℕ),
      (t.hour < H → get_current_day_timestamp t H = formatDate (prevDate t.date)) ∧
      (H ≤ t.hour → get_current_day_timestamp t H = formatDate t.date)) ∧
    get_current_day_timestamp ⟨⟨2025, 1, 15⟩, 5, 30, 0⟩ 6 = "2025-01-14" ∧
    get_current_day_timestamp ⟨⟨2025, 1, 15⟩, 6, 0, 0⟩ 6 = "2025-01-15" := by
  refine ⟨fun t H => ⟨fun h => ?_, fun h => ?_⟩, ?_, ?_⟩
  · unfold get_current_day_timestamp
    rw [if_pos h]
    rfl
  · unfold get_current_day_timestamp
    rw [if_neg (by omega)]
  · rfl
  · rfl

/-- Closed instance of `day_boundary_shift` at concrete inputs. -/
theorem day_boundary_shift_witness :
    get_current_day_timestamp ⟨⟨2025, 3, 1⟩, 4, 0, 0⟩ 6 = formatDate (prevDate ⟨2025, 3, 1⟩) ∧
    get_current_day_timestamp ⟨⟨2025, 3, 1⟩, 12, 0, 0⟩ 6 = formatDate ⟨2025, 3, 1⟩ :=
  ⟨(day_boundary_shift.1 ⟨⟨2025, 3, 1⟩, 4, 0, 0⟩ 6).1 (by decide),
   (day_boundary_shift.1 ⟨⟨2025, 3, 1⟩, 12, 0, 0⟩ 6).2 (by decide)⟩

/-- C9: for every (valid) day and start hour, the start and end of
`get_datetime_range_for_day` both test inside the day by
`is_datetime_in_day`, while start minus one second tests outside. -/
theorem range_round_trip (day : Date) (H : ℕ) (hv : validDate day) :
    is_datetime_in_day (get_datetime_range_for_day day H).1 day H = true ∧
    is_datetime_in_day (get_datetime_range_for_day day H).2 day H = true ∧
    is_datetime_in_day
      (minusOneSecondDT (get_datetime_range_for_day day H).1) day H = false := by
  have hstart_le_end :
      DateTime.le (get_datetime_range_for_day day H).1
        (get_datetime_range_for_day day H).2 := by
    show DateTime.le ⟨day, H, 0, 0⟩ (minusOneSecondDT ⟨nextDate day, H, 0, 0⟩)
    unfold minusOneSecondDT
    rw [if_neg (show ¬ (1 : ℚ) ≤ 0 by norm_num), if_neg (show ¬ (1 : ℕ) ≤ 0 by omega)]
    by_cases hH : 1 ≤ H
    · rw [if_pos hH]
      exact Or.inl (date_lt_nextDate day)
    · rw [if_neg hH]
      have h0 : H = 0 := by omega
      subst h0
      rw [prevDate_nextDate hv]
      exact Or.inr ⟨rfl, Or.inl (show (0 : ℕ) < 23 by omega)⟩
  refine ⟨?_, ?_, ?_⟩
  · unfold is_datetime_in_day
    rw [decide_eq_true_eq]
    exact ⟨DateTime.le_refl2 _, hstart_le_end⟩
  · unfold is_datetime_in_day
    rw [decide_eq_true_eq]
    exact ⟨hstart_le_end, DateTime.le_refl2 _⟩
  · unfold is_datetime_in_day
    rw [decide_eq_false_iff_not]
    rintro ⟨hc1, -⟩
    revert hc1
    show ¬ DateTime.le ⟨day, H, 0, 0⟩ (minusOneSecondDT ⟨day, H, 0, 0⟩)
    unfold minusOneSecondDT
    rw [if_neg (show ¬ (1 : ℚ) ≤ 0 by norm_num), if_neg (show ¬ (1 : ℕ) ≤ 0 by omega)]
    by_cases hH : 1 ≤ H
    · rw [if_pos hH]
      show ¬ DateTime.le ⟨day, H, 0, 0⟩ ⟨day, H - 1, 59, 0 + 59⟩
      rintro (hd | ⟨-, ht⟩)
      · exact Date.lt_irrefl2 day hd
      · rcases ht with h | ⟨he, -⟩
        · exact absurd (show H < H - 1 from h) (by omega)
        · exact absurd (show H = H - 1 from he) (by omega)
    · rw [if_neg hH]
      rintro (hd | ⟨he, -⟩)
      · exact Date.lt_asymm2 (prevDate_lt_date day) hd
      · exact Date.lt_ne (prevDate_lt_date day) he.symm

/-- Closed instance of `range_round_trip` at 2025-01-15 with start hour 6. -/
theorem range_round_trip_witness :
    is_datetime_in_day (get_datetime_range_for_day ⟨2025, 1, 15⟩ 6).1 ⟨2025, 1, 15⟩ 6 = true ∧
    is_datetime_in_day (get_datetime_range_for_day ⟨2025, 1, 15⟩ 6).2 ⟨2025, 1, 15⟩ 6 = true ∧
    is_datetime_in_day
      (minusOneSecondDT (get_datetime_range_for_day ⟨2025, 1, 15⟩ 6).1) ⟨2025, 1, 15⟩ 6 = false :=
  range_round_trip ⟨2025, 1, 15⟩ 6 (by decide)

/-- C10: an instant lying strictly between a day's end (start + 24h - 1s) and
the next day's start belongs to neither logical day: `is_datetime_in_day` is
false for both the day and the next day. -/
theorem gap_between_days (day : Date) (H : ℕ) (t : DateTime)
    (h1 : DateTime.ltS (get_datetime_range_for_day day H).2 t)
    (h2 : DateTime.ltS t (get_datetime_range_for_day (nextDate day) H).1) :
    is_datetime_in_day t day H = false ∧
    is_datetime_in_day t (nextDate day) H = false := by
  constructor
  · unfold is_datetime_in_day
    rw [decide_eq_false_iff_not]
    rintro ⟨-, hc⟩
    exact dt_ltS_not_le h1 hc
  · unfold is_datetime_in_day
    rw [decide_eq_false_iff_not]
    rintro ⟨hc, -⟩
    exact dt_ltS_not_le h2 hc

/-- Closed instance of `gap_between_days`: 2025-01-16T05:59:59.5 with start
hour 6 belongs neither to day 2025-01-15 nor to 2025-01-16. -/
theorem gap_between_days_witness :
    is_datetime_in_day ⟨⟨2025, 1, 16⟩, 5, 59, 119/2⟩ ⟨2025, 1, 15⟩ 6 = false ∧
    is_datetime_in_day ⟨⟨2025, 1, 16⟩, 5, 59, 119/2⟩ (nextDate ⟨2025, 1, 15⟩) 6 = false := by
  have hnext : nextDate ⟨2025, 1, 15⟩ = ⟨2025, 1, 16⟩ := by
    norm_num [nextDate, daysInMonth, isLeap]
  have hend : (get_datetime_range_for_day ⟨2025, 1, 15⟩ 6).2 = ⟨⟨2025, 1, 16⟩, 5, 59, 59⟩ := by
    show minusOneSecondDT ⟨nextDate ⟨2025, 1, 15⟩, 6, 0, 0⟩ = ⟨⟨2025, 1, 16⟩, 5, 59, 59⟩
    rw [hnext]
    norm_num [minusOneSecondDT]
  refine gap_between_days ⟨2025, 1, 15⟩ 6 ⟨⟨2025, 1, 16⟩, 5, 59, 119/2⟩ ?_ ?_
  · rw [hend]
    exact Or.inr ⟨rfl, Or.inr ⟨rfl, Or.inr ⟨rfl, by norm_num⟩⟩⟩
  · show DateTime.ltS ⟨⟨2025, 1, 16⟩, 5, 59, 119/2⟩ ⟨nextDate ⟨2025, 1, 15⟩, 6, 0, 0⟩
    rw [hnext]
    exact Or.inr ⟨rfl, Or.inl (by norm_num)⟩

/-! ## Aggregator data model

The Grocy HTTP client and the Postgres ledger are external collaborators:
they are embedded as records of fallible operations returning
`Except String` (an `.error` models a raised exception, carrying the
stringified message `str(exc)`). -/

/-- A JSON/userfield value as seen by `_get_float`: either a value `float()`
accepts (numbers, numeric strings) with its numeric content, or a value on
which `float()` raises `ValueError`/`TypeError`. -/
inductive UVal where
  | num (q : ℚ)
  | nonNumeric
deriving DecidableEq

/-- `float(v)`: the numeric content when conversion succeeds. -/
def floatOfUVal : UVal → Option ℚ
  | .num q => some q
  | .nonNumeric => none

def lookupKey (data : List (String × UVal)) (key : String) : Option UVal :=
  (data.find? (fun kv => kv.1 == key)).map (fun kv => kv.2)

/-- `macro_aggregator._get_float(data, key, default)`: `data.get(key)`,
returning `default` when the key is absent/None or `float()` raises. -/
def _get_float (data : List (String × UVal)) (key : String) (default : ℚ) : ℚ :=
  match lookupKey data key with
  | none => default
  | some v =>
    match floatOfUVal v with
    | some q => q
    | none => default

/-- A meal-plan entry as returned by `client.list_meal_plan()`.  Each
`Option` field models the presence of the corresponding JSON key; for the
three done-ish flags the `Bool` is the truthiness of the stored value, and
the id fields carry the integer value. -/
structure MealPlanEntry where
  day : Option String
  done : Option Bool
  is_done : Option Bool
  completed : Option Bool
  recipe_id : Option ℤ
  product_id : Option ℤ
  servings : Option UVal
  amount : Option UVal
deriving DecidableEq

/-- `entry.get("done") or entry.get("is_done") or entry.get("completed")`,
then truthiness-tested: true iff some present flag is truthy. -/
def doneFlag (e : MealPlanEntry) : Bool :=
  e.done.getD false || e.is_done.getD false || e.completed.getD false

/-- Python truthiness of `entry.get("recipe_id")` (an absent key or id 0 is
falsy in `if recipe_id:` / `elif product_id:`). -/
def truthyId : Option ℤ → Option ℤ
  | some n => if n = 0 then none else some n
  | none => none

structure RecipeObj where
  name : Option String
deriving DecidableEq

structure ProductObj where
  name : Option String
deriving DecidableEq

/-- The Grocy client collaborator, as used by the aggregation engine.  The
recipe-userfield fields model `client._get` on the primary and alternate
endpoints: `.ok (some d)` is a dict response, `.ok none` a non-dict
response, `.error` a raised exception. -/
structure Client where
  list_meal_plan : Except String (List MealPlanEntry)
  get_recipe : ℤ → Except String RecipeObj
  recipeUserfieldsPrimary : ℤ → Except String (Option (List (String × UVal)))
  recipeUserfieldsAlternate : ℤ → Except String (Option (List (String × UVal)))
  getProductObject : ℤ → Except String ProductObj
  get_product_userfields : ℤ → Except String (List (String × UVal))

/-- `macro_aggregator._get_recipe_userfields`: try the standard endpoint,
fall back to the alternate one, and return an empty dict when both fail or
return non-dict data.  Never raises. -/
def _get_recipe_userfields (c : Client) (rid : ℤ) : List (String × UVal) :=
  match c.recipeUserfieldsPrimary rid with
  | .ok (some d) => d
  | _ =>
    match c.recipeUserfieldsAlternate rid with
    | .ok (some d) => d
    | _ => []

/-- One element of the `entries[]` list of a day summary (the dicts built by
`get_grocy_consumed_for_day` / `get_temp_consumed_for_day`; the `"type"` key
is the `origin` field; temp entries carry no `servings` key). -/
structure ConsumedEntry where
  origin : String
  id : ℤ
  name : String
  servings : Option ℚ
  calories : ℤ
  carbs : ℚ
  fats : ℚ
  protein : ℚ
deriving DecidableEq

/-- `float(entry.get("servings", 1.0))` (same for `"amount"`): default 1.0
when the key is absent, `none` when `float()` raises. -/
def resolveMult : Option UVal → Option ℚ
  | none => some 1
  | some v => floatOfUVal v

/-- The per-entry body of the loop in `get_grocy_consumed_for_day`:
`none` models `continue` (day mismatch, not done, no usable id, or a raised
lookup/conversion caught by the per-entry `except`). -/
def consumedEntryFor (c : Client) (day : String) (e : MealPlanEntry) : Option ConsumedEntry :=
  if e.day ≠ some day then none
  else if ¬ doneFlag e then none
  else
    match truthyId e.recipe_id, truthyId e.product_id with
    | some rid, _ =>
      match c.get_recipe rid, resolveMult e.servings with
      | .ok recipe, some sv =>
        some { origin := "recipe", id := rid,
               name := recipe.name.getD ("Recipe " ++ toString rid),
               servings := some sv,
               calories := pyInt (_get_float (_get_recipe_userfields c rid) "recipe_calories" 0 * sv),
               carbs := _get_float (_get_recipe_userfields c rid) "recipe_carbs" 0 * sv,
               fats := _get_float (_get_recipe_userfields c rid) "recipe_fats" 0 * sv,
               protein := _get_float (_get_recipe_userfields c rid) "recipe_proteins" 0 * sv }
      | _, _ => none
    | none, some pid =>
      match c.getProductObject pid, c.get_product_userfields pid, resolveMult e.amount with
      | .ok product, .ok ufs, some am =>
        some { origin := "product", id := pid,
               name := product.name.getD ("Product " ++ toString pid),
               servings := some am,
               calories := pyInt (_get_float ufs "Calories_Per_Serving" 0 * am),
               carbs := _get_float ufs "Carbs" 0 * am,
               fats := _get_float ufs "Fats" 0 * am,
               protein := _get_float ufs "Protein" 0 * am }
      | _, _, _ => none
    | none, none => none

/-- `macro_aggregator.get_grocy_consumed_for_day`: on any client failure the
whole function degrades to `[]`. -/
def get_grocy_consumed_for_day (c : Client) (day : String) : List ConsumedEntry :=
  match c.list_meal_plan with
  | .error _ => []
  | .ok entries => entries.filterMap (consumedEntryFor c day)

/-- A row of `grocy_temp_items` for one day (`SELECT *` rows always carry
all columns; the numeric columns are Postgres reals). -/
structure TempItem where
  id : ℤ
  name : String
  calories : ℚ
  carbs : ℚ
  fats : ℚ
  protein : ℚ
deriving DecidableEq

/-- The local Postgres ledger collaborator (`macro_db` plus the direct
`execute_query` call in `get_recent_days_with_activity`); `.error` models a
raised database exception. -/
structure Ledger where
  tempItemsForDay : String → Except String (List TempItem)
  distinctTempDaysQuery : Except String (List String)
  getConfig : String → Except String (Option String)

/-- The dict built for one temp item: `int(...)` truncates the stored
calories, the other three macros pass through `float(...)` verbatim. -/
def tempEntryFor (it : TempItem) : ConsumedEntry :=
  { origin := "temp", id := it.id, name := it.name, servings := none,
    calories := pyInt it.calories, carbs := it.carbs, fats := it.fats,
    protein := it.protein }

/-- `macro_aggregator.get_temp_consumed_for_day`: any ledger exception is
caught and the function degrades to `[]`. -/
def get_temp_consumed_for_day (l : Ledger) (day : String) : List ConsumedEntry :=
  match l.tempItemsForDay day with
  | .error _ => []
  | .ok items => items.map tempEntryFor

/-- The four running totals of `get_grocy_planned_for_day` (and the shape of
the `planned`/`goal` dicts): calories int, macros float. -/
structure MacroTotals where
  calories : ℤ
  carbs : ℚ
  fats : ℚ
  protein : ℚ
deriving DecidableEq

def addTotals (a b : MacroTotals) : MacroTotals :=
  ⟨a.calories + b.calories, a.carbs + b.carbs, a.fats + b.fats, a.protein + b.protein⟩

/-- What one meal-plan entry adds to the planned running totals (the loop
body of `get_grocy_planned_for_day`); every `continue` path contributes
zero.  The planned path fetches no recipe/product display object. -/
def plannedContribution (c : Client) (day : String) (e : MealPlanEntry) : MacroTotals :=
  if e.day ≠ some day then ⟨0, 0, 0, 0⟩
  else
    match truthyId e.recipe_id, truthyId e.product_id with
    | some rid, _ =>
      match resolveMult e.servings with
      | some sv =>
        ⟨pyInt (_get_float (_get_recipe_userfields c rid) "recipe_calories" 0 * sv),
         _get_float (_get_recipe_userfields c rid) "recipe_carbs" 0 * sv,
         _get_float (_get_recipe_userfields c rid) "recipe_fats" 0 * sv,
         _get_float (_get_recipe_userfields c rid) "recipe_proteins" 0 * sv⟩
      | none => ⟨0, 0, 0, 0⟩
    | none, some pid =>
      match c.get_product_userfields pid, resolveMult e.amount with
      | .ok ufs, some am =>
        ⟨pyInt (_get_float ufs "Calories_Per_Serving" 0 * am),
         _get_float ufs "Carbs" 0 * am,
         _get_float ufs "Fats" 0 * am,
         _get_float ufs "Protein" 0 * am⟩
      | _, _ => ⟨0, 0, 0, 0⟩
    | none, none => ⟨0, 0, 0, 0⟩

def sumContributions (c : Client) (day : String) (es : List MealPlanEntry) : MacroTotals :=
  es.foldr (fun e acc => addTotals (plannedContribution c day e) acc) ⟨0, 0, 0, 0⟩

/-- `macro_aggregator.get_grocy_planned_for_day`: accumulate every entry of
the day (done or not), round the float totals to 2 decimals, degrade to
all-zero on a client failure. -/
def get_grocy_planned_for_day (c : Client) (day : String) : MacroTotals :=
  match c.list_meal_plan with
  | .error _ => ⟨0, 0, 0, 0⟩
  | .ok entries =>
    let t := sumContributions c day entries
    ⟨t.calories, round2 t.carbs, round2 t.fats, round2 t.protein⟩

/-! ## Configuration resolution (`get_goal_macros`, `get_day_start_hour`)

Environment variables and stored config values are strings; `int(s)` and
`float(s)` are modeled for the plain decimal forms (optional sign, digits,
optional fraction part for `float`).  Python's exotic accepted forms
(exponents, inf/nan, underscores, surrounding whitespace) are outside the
modeled input space. -/

def natOfDigits (l : List Char) : ℕ :=
  l.foldl (fun acc ch => acc * 10 + (ch.toNat - 48)) 0

def digitsToNat (l : List Char) : Option ℕ :=
  if l.isEmpty then none
  else if l.all Char.isDigit then some (natOfDigits l) else none

/-- `int(s)` on a string: optionally signed digit run, else raises. -/
def pyIntOfString (s : String) : Option ℤ :=
  match s.data with
  | '-' :: rest => (digitsToNat rest).map (fun n => -(n : ℤ))
  | '+' :: rest => (digitsToNat rest).map (fun n => (n : ℤ))
  | l => (digitsToNat l).map (fun n => (n : ℤ))

def decimalCore (l : List Char) : Option ℚ :=
  let ip := l.takeWhile (fun c => c != '.')
  match l.drop ip.length with
  | [] => (digitsToNat ip).map (fun n => (n : ℚ))
  | _ :: frac =>
    if frac.contains '.' then none
    else if ip.isEmpty && frac.isEmpty then none
    else if ip.all Char.isDigit && frac.all Char.isDigit then
      some ((natOfDigits ip : ℚ) + (natOfDigits frac : ℚ) / ((10 : ℚ) ^ frac.length))
    else none

/-- `float(s)` on a string: optionally signed decimal literal, else raises. -/
def pyFloatOfString (s : String) : Option ℚ :=
  match s.data with
  | '-' :: rest => (decimalCore rest).map (fun q => -q)
  | '+' :: rest => decimalCore rest
  | l => decimalCore l

/-- Python truthiness of an optional string (`None` and `""` are falsy) —
the `or`-chain steps in `get_goal_macros` and `if env_time:`. -/
def truthyStr : Option String → Option String
  | some s => if s = "" then none else some s
  | none => none

/-- The five environment variables consulted by the engine
(`os.getenv` results: `none` = unset). -/
structure OsEnv where
  dayStartTime : Option String
  goalCalories : Option String
  goalCarbs : Option String
  goalFats : Option String
  goalProtein : Option String

/-- One `os.getenv(VAR) or macro_db.get_config(key) or default` chain of
`get_goal_macros`: short-circuits on a truthy env value, otherwise consults
the ledger (whose exception propagates), otherwise the hardcoded default. -/
def resolveGoalString (envVal : Option String) (l : Ledger) (key dflt : String) :
    Except String String :=
  match truthyStr envVal with
  | some s => .ok s
  | none =>
    match l.getConfig key with
    | .error m => .error m
    | .ok cfg =>
      match truthyStr cfg with
      | some s => .ok s
      | none => .ok dflt

/-- `int(s)` with the raised `ValueError` as an `.error`. -/
def parsePyInt (s : String) : Except String ℤ :=
  match pyIntOfString s with
  | some n => .ok n
  | none => .error ("invalid literal for int with base 10: " ++ s)

/-- `float(s)` with the raised `ValueError` as an `.error`. -/
def parsePyFloat (s : String) : Except String ℚ :=
  match pyFloatOfString s with
  | some q => .ok q
  | none => .error ("could not convert string to float: " ++ s)

def resolveGoalInt (envVal : Option String) (l : Ledger) (key dflt : String) :
    Except String ℤ :=
  match resolveGoalString envVal l key dflt with
  | .error m => .error m
  | .ok s => parsePyInt s

def resolveGoalFloat (envVal : Option String) (l : Ledger) (key dflt : String) :
    Except String ℚ :=
  match resolveGoalString envVal l key dflt with
  | .error m => .error m
  | .ok s => parsePyFloat s

/-- `macro_aggregator.get_goal_macros`: env override, then stored config,
then hardcoded defaults 3500/350/100/250.  Nothing here is wrapped in a
`try`, so a ledger failure or an unparsable value raises (first one wins). -/
def get_goal_macros (env : OsEnv) (l : Ledger) : Except String MacroTotals :=
  match resolveGoalInt env.goalCalories l "goal_calories" "3500" with
  | .error m => .error m
  | .ok gc =>
    match resolveGoalFloat env.goalCarbs l "goal_carbs" "350" with
    | .error m => .error m
    | .ok gb =>
      match resolveGoalFloat env.goalFats l "goal_fats" "100" with
      | .error m => .error m
      | .ok gf =>
        match resolveGoalFloat env.goalProtein l "goal_protein" "250" with
        | .error m => .error m
        | .ok gp => .ok ⟨gc, round2 gb, round2 gf, round2 gp⟩

/-- `len(s) == 4 and s.isdigit()` — the `DAY_START_TIME` shape check. -/
def isFourDigit (s : String) : Bool :=
  s.length == 4 && s.data.all Char.isDigit

/-- `int(env_time[:2])` for a digit string. -/
def hourOfHHMM (s : String) : ℕ := natOfDigits (s.data.take 2)

/-- The database tier of `day_utils.get_day_start_hour`: the `get_config`
call itself is not inside the `try`, so a ledger failure raises; a missing,
unparsable or out-of-range stored value falls back to 6. -/
def dayStartHourFromDb (l : Ledger) : Except String ℕ :=
  match l.getConfig "day_start_hour" with
  | .error m => .error m
  | .ok none => .ok 6
  | .ok (some s) =>
    match pyIntOfString s with
    | none => .ok 6
    | some h => if 0 ≤ h ∧ h ≤ 23 then .ok h.toNat else .ok 6

/-- `day_utils.get_day_start_hour`: `DAY_START_TIME` env override (4-digit
`HHMM`, hour part in range), then stored config, then 6. -/
def get_day_start_hour (env : OsEnv) (l : Ledger) : Except String ℕ :=
  match truthyStr env.dayStartTime with
  | some s =>
    if isFourDigit s then
      if hourOfHHMM s ≤ 23 then .ok (hourOfHHMM s) else dayStartHourFromDb l
    else dayStartHourFromDb l
  | none => dayStartHourFromDb l

/-! ## Day summary and the integration layer -/

/-- The `consumed` block of a day summary. -/
structure ConsumedBlock where
  calories : ℤ
  carbs : ℚ
  fats : ℚ
  protein : ℚ
  entries : List ConsumedEntry
deriving DecidableEq

structure DaySummary where
  day : String
  consumed : ConsumedBlock
  planned : MacroTotals
  goal : MacroTotals
deriving DecidableEq

/-- `macro_aggregator.get_day_summary`: concatenate the two consumed entry
lists, total them (the calorie total is a sum of Python ints, so the final
`int(...)` is the identity; the float totals get `round(_, 2)`), and attach
planned and goal.  Only `get_goal_macros` can raise here. -/
def get_day_summary (c : Client) (l : Ledger) (env : OsEnv) (day : String) :
    Except String DaySummary :=
  let allEntries := get_grocy_consumed_for_day c day ++ get_temp_consumed_for_day l day
  match get_goal_macros env l with
  | .error m => .error m
  | .ok goal =>
    .ok { day := day,
          consumed := { calories := (allEntries.map (fun e => e.calories)).sum,
                        carbs := round2 ((allEntries.map (fun e => e.carbs)).sum),
                        fats := round2 ((allEntries.map (fun e => e.fats)).sum),
                        protein := round2 ((allEntries.map (fun e => e.protein)).sum),
                        entries := allEntries },
          planned := get_grocy_planned_for_day c day,
          goal := goal }

/-- The JSON payload a caller of the integration layer receives: either the
ordinary payload or the `(status error, message)` envelope produced by the
outer `except` blocks in `integrations/macros.py`. -/
inductive ApiResult (α : Type) where
  | payload (v : α)
  | errorEnvelope (message : String)
deriving DecidableEq

/-- `integrations.macros.get_day_macros` with an explicit day argument: the
summary, or the error envelope when `get_day_summary` raised. -/
def get_day_macros (c : Client) (l : Ledger) (env : OsEnv) (day : String) :
    ApiResult DaySummary :=
  match get_day_summary c l env day with
  | .ok s => .payload s
  | .error m => .errorEnvelope m

/-- Code-point lexicographic string comparison (how Python compares the
`YYYY-MM-DD` day strings). -/
def charListLe : List Char → List Char → Bool
  | [], _ => true
  | _ :: _, [] => false
  | a :: as, b :: bs =>
    if a.toNat < b.toNat then true
    else if b.toNat < a.toNat then false
    else charListLe as bs

def strLeB (a b : String) : Bool := charListLe a.data b.data

def insertDesc (x : String) : List String → List String
  | [] => [x]
  | y :: ys => if strLeB y x then x :: y :: ys else y :: insertDesc x ys

/-- `sorted(days, reverse=True)`: descending insertion sort. -/
def sortDesc (l : List String) : List String := l.foldr insertDesc []

/-- `macro_aggregator.get_recent_days_with_activity`: distinct days from the
temp-item table (exceptions swallowed) plus days from the meal plan
(exceptions swallowed), empty days dropped by truthiness, sorted descending;
a positive limit truncates. -/
def get_recent_days_with_activity (c : Client) (l : Ledger) (limit : Option ℤ) :
    List String :=
  let tempDays :=
    match l.distinctTempDaysQuery with
    | .ok rows => rows.filter (fun d => d != "")
    | .error _ => []
  let planDays :=
    match c.list_meal_plan with
    | .ok es => es.filterMap (fun e =>
        match e.day with
        | some d => if d = "" then none else some d
        | none => none)
    | .error _ => []
  let daysList := sortDesc ((tempDays ++ planDays).dedup)
  match limit with
  | some n => if 0 < n then daysList.take n.toNat else daysList
  | none => daysList

/-- The payload of `integrations.macros.get_recent_days`. -/
structure PagedDays where
  days : List DaySummary
  total_pages : ℤ
  current_page : ℤ
  total_days : ℤ
deriving DecidableEq

/-- Python `max` on two ints (kernel-reducible form). -/
def intMax (a b : ℤ) : ℤ := if a ≤ b then b else a

/-- Python `min` on two ints (kernel-reducible form). -/
def intMin (a b : ℤ) : ℤ := if a ≤ b then a else b

/-- `integrations.macros.get_recent_days`: paginate the full activity-day
list (`total_pages = max(1, ceil-div)`, clamp the page, slice, summarize the
slice skipping days whose summary raises).  `limit = 0` raises
`ZeroDivisionError`, caught by the outer `except` into the error envelope;
the slice is modeled for the nonnegative indices the clamped page yields. -/
def get_recent_days (c : Client) (l : Ledger) (env : OsEnv) (page limit : ℤ) :
    ApiResult PagedDays :=
  if limit = 0 then .errorEnvelope "integer division or modulo by zero"
  else
    let allDays := get_recent_days_with_activity c l none
    let totalDays : ℤ := allDays.length
    let totalPages := intMax 1 ((totalDays + limit - 1).fdiv limit)
    let clampedPage := intMax 0 (intMin page (totalPages - 1))
    let pageDays := (allDays.drop (clampedPage * limit).toNat).take limit.toNat
    .payload { days := pageDays.filterMap
                 (fun d => (get_day_summary c l env d).toOption),
               total_pages := totalPages,
               current_page := clampedPage,
               total_days := totalDays }

/-! ### Evaluation helpers -/

theorem pyInt_of_int (n : ℤ) : pyInt ((n : ℚ)) = n := by
  unfold pyInt
  split
  · exact Int.floor_intCast n
  · exact Int.ceil_intCast n

theorem round2_of_int (n : ℤ) : round2 ((n : ℚ)) = n := by
  unfold round2 roundHalfEven
  have h1 : ((n : ℚ)) * 100 = (((100 * n : ℤ)) : ℚ) := by push_cast; ring
  rw [h1, Int.floor_intCast]
  rw [if_pos (by push_cast; norm_num)]
  push_cast
  field_simp

theorem round2_zero : round2 0 = 0 := by
  simpa using round2_of_int 0

theorem addTotals_zero_right (t : MacroTotals) : addTotals t ⟨0, 0, 0, 0⟩ = t := by
  unfold addTotals
  obtain ⟨a, b, c, d⟩ := t
  simp

/-! ### Shared concrete collaborators for closed instances -/

/-- A client whose backend is fully unreachable except for an empty meal
plan. -/
def emptyClient : Client :=
  { list_meal_plan := .ok []
    get_recipe := fun _ => .error "404"
    recipeUserfieldsPrimary := fun _ => .error "404"
    recipeUserfieldsAlternate := fun _ => .error "404"
    getProductObject := fun _ => .error "404"
    get_product_userfields := fun _ => .error "404" }

/-- A reachable but empty ledger. -/
def emptyLedger : Ledger :=
  { tempItemsForDay := fun _ => .ok []
    distinctTempDaysQuery := .ok []
    getConfig := fun _ => .ok none }

/-- No environment variables set. -/
def noEnv : OsEnv := ⟨none, none, none, none, none⟩

/-- All four goal overrides set to the documented defaults. -/
def goalsEnv : OsEnv := ⟨none, some "3500", some "350", some "100", some "250"⟩

theorem resolveGoalString_envSet {s : String} (hs : ¬ s = "") (l : Ledger)
    (key dflt : String) : resolveGoalString (some s) l key dflt = .ok s := by
  unfold resolveGoalString
  simp only [truthyStr]
  rw [if_neg hs]

theorem resolveGoalInt_envSet {s : String} (hs : ¬ s = "") (l : Ledger)
    (key dflt : String) : resolveGoalInt (some s) l key dflt = parsePyInt s := by
  unfold resolveGoalInt
  rw [resolveGoalString_envSet hs]

theorem resolveGoalFloat_envSet {s : String} (hs : ¬ s = "") (l : Ledger)
    (key dflt : String) : resolveGoalFloat (some s) l key dflt = parsePyFloat s := by
  unfold resolveGoalFloat
  rw [resolveGoalString_envSet hs]

theorem round2_350 : round2 (350 : ℚ) = 350 := by simpa using round2_of_int 350

theorem round2_100 : round2 (100 : ℚ) = 100 := by simpa using round2_of_int 100

theorem round2_250 : round2 (250 : ℚ) = 250 := by simpa using round2_of_int 250

theorem get_goal_macros_goalsEnv (l : Ledger) :
    get_goal_macros goalsEnv l = .ok ⟨3500, 350, 100, 250⟩ := by
  have hc : resolveGoalInt goalsEnv.goalCalories l "goal_calories" "3500" = .ok 3500 := by
    have he : goalsEnv.goalCalories = some "3500" := rfl
    rw [he, resolveGoalInt_envSet (by decide)]
    rfl
  have hb : resolveGoalFloat goalsEnv.goalCarbs l "goal_carbs" "350" = .ok 350 := by
    have he : goalsEnv.goalCarbs = some "350" := rfl
    rw [he, resolveGoalFloat_envSet (by decide)]
    rfl
  have hf : resolveGoalFloat goalsEnv.goalFats l "goal_fats" "100" = .ok 100 := by
    have he : goalsEnv.goalFats = some "100" := rfl
    rw [he, resolveGoalFloat_envSet (by decide)]
    rfl
  have hp : resolveGoalFloat goalsEnv.goalProtein l "goal_protein" "250" = .ok 250 := by
    have he : goalsEnv.goalProtein = some "250" := rfl
    rw [he, resolveGoalFloat_envSet (by decide)]
    rfl
  unfold get_goal_macros
  simp only [hc, hb, hf, hp]
  rw [round2_350, round2_100, round2_250]

/-! ### Claim C1 -/

/-- C1: for every day, any summary returned by `get_day_summary` satisfies
`consumed.calories = sum of the calories fields of consumed.entries` exactly,
for any mixture of recipe-, product- and temp-origin entries; the meal-plan
and temp portions are concatenated, never merged, so no entry is counted in
both. -/
theorem consumed_calories_additive (c : Client) (l : Ledger) (env : OsEnv)
    (day : String) (s : DaySummary)
    (h : get_day_summary c l env day = Except.ok s) :
    s.consumed.calories = (s.consumed.entries.map (fun e => e.calories)).sum ∧
    s.consumed.entries =
      get_grocy_consumed_for_day c day ++ get_temp_consumed_for_day l day := by
  simp only [get_day_summary] at h
  cases hg : get_goal_macros env l with
  | error m =>
    rw [hg] at h
    simp at h
  | ok g =>
    rw [hg] at h
    simp only [Except.ok.injEq] at h
    subst h
    exact ⟨rfl, rfl⟩

/-- Closed instance of `consumed_calories_additive`. -/
theorem consumed_calories_additive_witness :
    (⟨"2025-01-01", ⟨0, 0, 0, 0, []⟩, ⟨0, 0, 0, 0⟩,
        ⟨3500, 350, 100, 250⟩⟩ : DaySummary).consumed.calories =
      (((⟨"2025-01-01", ⟨0, 0, 0, 0, []⟩, ⟨0, 0, 0, 0⟩,
        ⟨3500, 350, 100, 250⟩⟩ : DaySummary)).consumed.entries.map
          (fun e => e.calories)).sum ∧
    (⟨"2025-01-01", ⟨0, 0, 0, 0, []⟩, ⟨0, 0, 0, 0⟩,
        ⟨3500, 350, 100, 250⟩⟩ : DaySummary).consumed.entries =
      get_grocy_consumed_for_day emptyClient "2025-01-01" ++
        get_temp_consumed_for_day emptyLedger "2025-01-01" := by
  refine consumed_calories_additive emptyClient emptyLedger goalsEnv "2025-01-01" _ ?_
  simp only [get_day_summary]
  rw [get_goal_macros_goalsEnv]
  have h1 : get_grocy_consumed_for_day emptyClient "2025-01-01" = [] := rfl
  have h2 : get_temp_consumed_for_day emptyLedger "2025-01-01" = [] := rfl
  rw [h1, h2]
  simp [round2_zero, get_grocy_planned_for_day, emptyClient, sumContributions]

/-! ### Claim C4 (corrected) -/

/-- A ledger on which every operation raises. -/
def brokenLedger : Ledger :=
  { tempItemsForDay := fun _ => .error "connection to server failed"
    distinctTempDaysQuery := .error "connection to server failed"
    getConfig := fun _ => .error "connection to server failed" }

/-- C4 counterexample: with a ledger on which every operation raises (and
goals supplied by environment variables), `get_temp_consumed_for_day`
swallows the ledger error and returns `[]`, and the caller of
`get_day_macros` receives an ordinary summary payload — not the
`(status error, message)` envelope the claim requires. -/
theorem ledger_error_not_hard_failure :
    get_temp_consumed_for_day brokenLedger "2025-01-01" = [] ∧
    get_day_macros emptyClient brokenLedger goalsEnv "2025-01-01" =
      ApiResult.payload
        ⟨"2025-01-01", ⟨0, 0, 0, 0, []⟩, ⟨0, 0, 0, 0⟩, ⟨3500, 350, 100, 250⟩⟩ := by
  constructor
  · rfl
  · have hsum : get_day_summary emptyClient brokenLedger goalsEnv "2025-01-01" =
        .ok ⟨"2025-01-01", ⟨0, 0, 0, 0, []⟩, ⟨0, 0, 0, 0⟩, ⟨3500, 350, 100, 250⟩⟩ := by
      simp only [get_day_summary]
      rw [get_goal_macros_goalsEnv]
      have h1 : get_grocy_consumed_for_day emptyClient "2025-01-01" = [] := rfl
      have h2 : get_temp_consumed_for_day brokenLedger "2025-01-01" = [] := rfl
      rw [h1, h2]
      simp [round2_zero, get_grocy_planned_for_day, emptyClient, sumContributions]
    unfold get_day_macros
    rw [hsum]

/-- C4 (amended): a ledger failure while fetching temp items is swallowed —
that portion degrades to an empty list and the engine does not raise.  The
engine raises on a ledger failure only through goal resolution: when no

truthy goal environment override is set and the config lookup raises, the
error propagates and the caller of `get_day_macros` receives the
`(status error, message)` envelope. -/
theorem ledger_error_policy :
    (∀ (l : Ledger) (day m : String), l.tempItemsForDay day = .error m →
      get_temp_consumed_for_day l day = []) ∧
    (∀ (c : Client) (l : Ledger) (env : OsEnv) (day m : String),
      truthyStr env.goalCalories = none →
      l.getConfig "goal_calories" = .error m →
      get_day_macros c l env day = .errorEnvelope m) := by
  constructor
  · intro l day m h
    unfold get_temp_consumed_for_day
    rw [h]
  · intro c l env day m henv hcfg
    have hstr : resolveGoalString env.goalCalories l "goal_calories" "3500" =
        .error m := by
      unfold resolveGoalString
      rw [henv, hcfg]
    have hres : resolveGoalInt env.goalCalories l "goal_calories" "3500" =
        .error m := by
      unfold resolveGoalInt
      rw [hstr]
    have hg : get_goal_macros env l = .error m := by
      unfold get_goal_macros
      rw [hres]
    unfold get_day_macros
    simp only [get_day_summary]
    rw [hg]

/-- Closed instance of `ledger_error_policy` on the all-raising ledger. -/
theorem ledger_error_policy_witness :
    get_temp_consumed_for_day brokenLedger "2025-01-01" = [] ∧
    get_day_macros emptyClient brokenLedger noEnv "2025-01-01" =
      ApiResult.errorEnvelope "connection to server failed" :=
  ⟨ledger_error_policy.1 brokenLedger "2025-01-01" "connection to server failed" rfl,
   ledger_error_policy.2 emptyClient brokenLedger noEnv "2025-01-01"
     "connection to server failed" rfl rfl⟩

/-! ### Claim C5 (corrected) -/

/-- Goal-calorie override set to a non-numeric string. -/
def envBadCal : OsEnv := ⟨none, some "abc", some "350", some "100", some "250"⟩

/-- C5 counterexample: with `MACRO_GOAL_CALORIES=abc`, the configuration
error does not fall through to the stored config — `int("abc")` raises out
of `get_goal_macros` and the caller of `get_day_macros` receives the error
envelope, contradicting "never raised to the caller". -/
theorem goal_override_error_raises :
    get_goal_macros envBadCal emptyLedger =
      Except.error "invalid literal for int with base 10: abc" ∧
    get_day_macros emptyClient emptyLedger envBadCal "2025-01-01" =
      ApiResult.errorEnvelope "invalid literal for int with base 10: abc" := by
  have hg : get_goal_macros envBadCal emptyLedger =
      Except.error "invalid literal for int with base 10: abc" := by
    have hc : resolveGoalInt envBadCal.goalCalories emptyLedger "goal_calories" "3500" =
        Except.error "invalid literal for int with base 10: abc" := by
      have he : envBadCal.goalCalories = some "abc" := rfl
      rw [he, resolveGoalInt_envSet (by decide)]
      rfl
    unfold get_goal_macros
    rw [hc]
  refine ⟨hg, ?_⟩
  unfold get_day_macros
  simp only [get_day_summary]
  rw [hg]

/-- Ledger with a stored goal-calories config of 4000 and nothing else. -/
def ledgerStored4000 : Ledger :=
  { tempItemsForDay := fun _ => .ok []
    distinctTempDaysQuery := .ok []
    getConfig := fun k => if k = "goal_calories" then .ok (some "4000") else .ok none }

/-- Only the calorie override set, to 2000. -/
def env2000 : OsEnv := ⟨none, some "2000", none, none, none⟩

/-- Ledger with a non-numeric stored day-start hour. -/
def ledgerBadHour : Ledger :=
  { tempItemsForDay := fun _ => .ok []
    distinctTempDaysQuery := .ok []
    getConfig := fun k => if k = "day_start_hour" then .ok (some "noon") else .ok none }

theorem resolveGoalString_stored {l : Ledger} {key v : String}
    (h : l.getConfig key = .ok (some v)) (hv : ¬ v = "") (dflt : String) :
    resolveGoalString none l key dflt = .ok v := by
  unfold resolveGoalString
  simp only [truthyStr]
  rw [h]
  simp only [truthyStr]
  rw [if_neg hv]

theorem resolveGoalString_dbDefault {l : Ledger} {key : String}
    (h : l.getConfig key = .ok none) (dflt : String) :
    resolveGoalString none l key dflt = .ok dflt := by
  unfold resolveGoalString
  simp only [truthyStr]
  rw [h]

/-- C5 (amended): the three-tier precedence env override > stored config >
hardcoded default holds for well-formed values (2000 beats a stored 4000; a
stored 4000 beats the 3500 default; with neither, 3500/350/100/250), and
`DAY_START_TIME` errors do silently fall through (a malformed or
out-of-range env value falls to the database tier; a non-numeric stored
value falls to the default 6) — but a non-numeric goal override does NOT
fall through: `get_goal_macros` raises its `ValueError`. -/
theorem config_error_fallthrough :
    get_goal_macros env2000 ledgerStored4000 = .ok ⟨2000, 350, 100, 250⟩ ∧
    get_goal_macros noEnv ledgerStored4000 = .ok ⟨4000, 350, 100, 250⟩ ∧
    get_goal_macros noEnv emptyLedger = .ok ⟨3500, 350, 100, 250⟩ ∧
    (∀ (env : OsEnv) (l : Ledger) (s : String), env.dayStartTime = some s →
      (isFourDigit s = false ∨ 23 < hourOfHHMM s) →
      get_day_start_hour env l = dayStartHourFromDb l) ∧
    (∀ (l : Ledger) (s : String), l.getConfig "day_start_hour" = .ok (some s) →
      pyIntOfString s = none → dayStartHourFromDb l = .ok 6) ∧
    (∀ (env : OsEnv) (l : Ledger) (s : String), truthyStr env.goalCalories = some s →
      pyIntOfString s = none →
      get_goal_macros env l = .error ("invalid literal for int with base 10: " ++ s)) := by
  have hcarbs : ∀ l : Ledger, l.getConfig "goal_carbs" = .ok none →
      resolveGoalFloat none l "goal_carbs" "350" = .ok 350 := by
    intro l h
    unfold resolveGoalFloat
    rw [resolveGoalString_dbDefault h]
    rfl
  have hfats : ∀ l : Ledger, l.getConfig "goal_fats" = .ok none →
      resolveGoalFloat none l "goal_fats" "100" = .ok 100 := by
    intro l h
    unfold resolveGoalFloat
    rw [resolveGoalString_dbDefault h]
    rfl
  have hprot : ∀ l : Ledger, l.getConfig "goal_protein" = .ok none →
      resolveGoalFloat none l "goal_protein" "250" = .ok 250 := by
    intro l h
    unfold resolveGoalFloat
    rw [resolveGoalString_dbDefault h]
    rfl
  refine ⟨?_, ?_, ?_, ?_, ?_, ?_⟩
  · have hc : resolveGoalInt env2000.goalCalories ledgerStored4000 "goal_calories" "3500" =
        .ok 2000 := by
      have he : env2000.goalCalories = some "2000" := rfl
      rw [he, resolveGoalInt_envSet (by decide)]
      rfl
    unfold get_goal_macros
    rw [show env2000.goalCarbs = none from rfl, show env2000.goalFats = none from rfl,
      show env2000.goalProtein = none from rfl]
    simp only [hc, hcarbs ledgerStored4000 rfl, hfats ledgerStored4000 rfl,
      hprot ledgerStored4000 rfl]
    rw [round2_350, round2_100, round2_250]
  · have hc : resolveGoalInt noEnv.goalCalories ledgerStored4000 "goal_calories" "3500" =
        .ok 4000 := by
      show resolveGoalInt none ledgerStored4000 "goal_calories" "3500" = .ok 4000
      unfold resolveGoalInt
      rw [resolveGoalString_stored (show ledgerStored4000.getConfig "goal_calories" =
        .ok (some "4000") from rfl) (by decide)]
      rfl
    unfold get_goal_macros
    rw [show noEnv.goalCarbs = none from rfl, show noEnv.goalFats = none from rfl,
      show noEnv.goalProtein = none from rfl]
    simp only [hc, hcarbs ledgerStored4000 rfl, hfats ledgerStored4000 rfl,
      hprot ledgerStored4000 rfl]
    rw [round2_350, round2_100, round2_250]
  · have hc : resolveGoalInt noEnv.goalCalories emptyLedger "goal_calories" "3500" =
        .ok 3500 := by
      show resolveGoalInt none emptyLedger "goal_calories" "3500" = .ok 3500
      unfold resolveGoalInt
      rw [resolveGoalString_dbDefault (show emptyLedger.getConfig "goal_calories" =
        .ok none from rfl)]
      rfl
    unfold get_goal_macros
    rw [show noEnv.goalCarbs = none from rfl, show noEnv.goalFats = none from rfl,
      show noEnv.goalProtein = none from rfl]
    simp only [hc, hcarbs emptyLedger rfl, hfats emptyLedger rfl, hprot emptyLedger rfl]
    rw [round2_350, round2_100, round2_250]
  · intro env l s hds hbad
    unfold get_day_start_hour
    rw [hds]
    simp only [truthyStr]
    by_cases hse : s = ""
    · rw [if_pos hse]
    · rw [if_neg hse]
      show (if isFourDigit s = true then
          (if hourOfHHMM s ≤ 23 then Except.ok (hourOfHHMM s) else dayStartHourFromDb l)
        else dayStartHourFromDb l) = dayStartHourFromDb l
      by_cases h4 : isFourDigit s
      · rw [if_pos h4]
        rcases hbad with hb | hb
        · rw [h4] at hb
          exact absurd hb (by simp)
        · rw [if_neg (by omega)]
      · rw [if_neg h4]
  · intro l s hcfg hparse
    unfold dayStartHourFromDb
    rw [hcfg]
    show (match pyIntOfString s with
      | none => Except.ok 6
      | some h => if 0 ≤ h ∧ h ≤ 23 then Except.ok h.toNat else Except.ok 6) = Except.ok 6
    rw [hparse]
  · intro env l s henv hparse
    have hstr : resolveGoalString env.goalCalories l "goal_calories" "3500" = .ok s := by
      unfold resolveGoalString
      rw [henv]
    have hres : resolveGoalInt env.goalCalories l "goal_calories" "3500" =
        .error ("invalid literal for int with base 10: " ++ s) := by
      unfold resolveGoalInt
      rw [hstr]
      show parsePyInt s = .error ("invalid literal for int with base 10: " ++ s)
      unfold parsePyInt
      rw [hparse]
    unfold get_goal_macros
    rw [hres]

/-- Closed instance of `config_error_fallthrough` at concrete inputs. -/
theorem config_error_fallthrough_witness :
    get_day_start_hour ⟨some "99xx", none, none, none, none⟩ emptyLedger =
      dayStartHourFromDb emptyLedger ∧
    dayStartHourFromDb ledgerBadHour = .ok 6 ∧
    get_goal_macros envBadCal emptyLedger =
      .error ("invalid literal for int with base 10: " ++ "abc") :=
  ⟨config_error_fallthrough.2.2.2.1 ⟨some "99xx", none, none, none, none⟩ emptyLedger
      "99xx" rfl (Or.inl (by decide)),
   config_error_fallthrough.2.2.2.2.1 ledgerBadHour "noon" rfl rfl,
   config_error_fallthrough.2.2.2.2.2 envBadCal emptyLedger "abc" rfl rfl⟩

/-! ### Claim C6 (corrected) -/

/-- A ledger holding one temp item with fractional stored calories 150.7. -/
def ledger1507 : Ledger :=
  { tempItemsForDay := fun d =>
      if d = "2025-01-01" then .ok [⟨1, "snack", 1507/10, 10, 5, 5⟩] else .ok []
    distinctTempDaysQuery := .ok ["2025-01-01"]
    getConfig := fun _ => .ok none }

theorem pyInt_1507 : pyInt (1507/10 : ℚ) = 150 := by
  unfold pyInt
  rw [if_pos (by norm_num)]
  norm_num

theorem day_summary_ledger1507 :
    get_day_summary emptyClient ledger1507 goalsEnv "2025-01-01" =
      .ok ⟨"2025-01-01",
        ⟨150, 10, 5, 5, [⟨"temp", 1, "snack", none, 150, 10, 5, 5⟩]⟩,
        ⟨0, 0, 0, 0⟩, ⟨3500, 350, 100, 250⟩⟩ := by
  have htemp : get_temp_consumed_for_day ledger1507 "2025-01-01" =
      [⟨"temp", 1, "snack", none, 150, 10, 5, 5⟩] := by
    have h : ledger1507.tempItemsForDay "2025-01-01" =
        .ok [⟨1, "snack", 1507/10, 10, 5, 5⟩] := rfl
    unfold get_temp_consumed_for_day
    rw [h]
    show [tempEntryFor ⟨1, "snack", 1507/10, 10, 5, 5⟩] =
      [⟨"temp", 1, "snack", none, 150, 10, 5, 5⟩]
    unfold tempEntryFor
    rw [pyInt_1507]
  have h10 : round2 ((10 : ℚ)) = 10 := by simpa using round2_of_int 10
  have h5 : round2 ((5 : ℚ)) = 5 := by simpa using round2_of_int 5
  simp only [get_day_summary]
  rw [get_goal_macros_goalsEnv]
  rw [show get_grocy_consumed_for_day emptyClient "2025-01-01" = [] from rfl]
  rw [htemp]
  simp [h10, h5, get_grocy_planned_for_day, emptyClient, sumContributions, round2_zero]

/-- C6 counterexample: a temp item stored with calories 150.7 does not enter
the consumed aggregation verbatim — `int()` truncates it to 150 both in its
entry and in the summary's consumed calorie total. -/
theorem temp_calories_not_verbatim :
    get_temp_consumed_for_day ledger1507 "2025-01-01" =
      [⟨"temp", 1, "snack", none, 150, 10, 5, 5⟩] ∧
    get_day_summary emptyClient ledger1507 goalsEnv "2025-01-01" =
      .ok ⟨"2025-01-01",
        ⟨150, 10, 5, 5, [⟨"temp", 1, "snack", none, 150, 10, 5, 5⟩]⟩,
        ⟨0, 0, 0, 0⟩, ⟨3500, 350, 100, 250⟩⟩ ∧
    ((150 : ℚ) ≠ 1507/10) := by
  refine ⟨?_, day_summary_ledger1507, by norm_num⟩
  have h : ledger1507.tempItemsForDay "2025-01-01" =
      .ok [⟨1, "snack", 1507/10, 10, 5, 5⟩] := rfl
  unfold get_temp_consumed_for_day
  rw [h]
  show [tempEntryFor ⟨1, "snack", 1507/10, 10, 5, 5⟩] =
    [⟨"temp", 1, "snack", none, 150, 10, 5, 5⟩]
  unfold tempEntryFor
  rw [pyInt_1507]

/-- C6 (amended): the consumed totals are the elementwise sums over all
entries (the calorie entries are already integers, so their sum is exact;
the three float totals are rounded to 2 decimal places), and each temp item
enters unmultiplied by any serving count, with carbs/fats/protein taken
verbatim as stored but calories truncated toward zero to an integer by
`int()`. -/
theorem consumed_totals_shape (c : Client) (l : Ledger) (env : OsEnv) (day : String)
    (s : DaySummary) (items : List TempItem)
    (hitems : l.tempItemsForDay day = .ok items)
    (h : get_day_summary c l env day = Except.ok s) :
    s.consumed.calories = (s.consumed.entries.map (fun e => e.calories)).sum ∧
    s.consumed.carbs = round2 ((s.consumed.entries.map (fun e => e.carbs)).sum) ∧
    s.consumed.fats = round2 ((s.consumed.entries.map (fun e => e.fats)).sum) ∧
    s.consumed.protein = round2 ((s.consumed.entries.map (fun e => e.protein)).sum) ∧
    get_temp_consumed_for_day l day = items.map tempEntryFor ∧
    ∀ it ∈ items, tempEntryFor it =
      ⟨"temp", it.id, it.name, none, pyInt it.calories, it.carbs, it.fats,
        it.protein⟩ := by
  have htemp : get_temp_consumed_for_day l day = items.map tempEntryFor := by
    unfold get_temp_consumed_for_day
    rw [hitems]
  simp only [get_day_summary] at h
  cases hg : get_goal_macros env l with
  | error m =>
    rw [hg] at h
    simp at h
  | ok g =>
    rw [hg] at h
    simp only [Except.ok.injEq] at h
    subst h
    exact ⟨rfl, rfl, rfl, rfl, htemp, fun it _ => rfl⟩

/-- Closed instance of `consumed_totals_shape` on the 150.7-calorie ledger. -/
theorem consumed_totals_shape_witness :
    get_temp_consumed_for_day ledger1507 "2025-01-01" =
      [⟨1, "snack", (1507/10 : ℚ), 10, 5, 5⟩].map tempEntryFor ∧
    (⟨"2025-01-01", ⟨150, 10, 5, 5, [⟨"temp", 1, "snack", none, 150, 10, 5, 5⟩]⟩,
        ⟨0, 0, 0, 0⟩, ⟨3500, 350, 100, 250⟩⟩ : DaySummary).consumed.calories =
      (((⟨"2025-01-01", ⟨150, 10, 5, 5, [⟨"temp", 1, "snack", none, 150, 10, 5, 5⟩]⟩,
        ⟨0, 0, 0, 0⟩, ⟨3500, 350, 100, 250⟩⟩ : DaySummary)).consumed.entries.map
          (fun e => e.calories)).sum := by
  have happ := consumed_totals_shape emptyClient ledger1507 goalsEnv "2025-01-01"
    ⟨"2025-01-01", ⟨150, 10, 5, 5, [⟨"temp", 1, "snack", none, 150, 10, 5, 5⟩]⟩,
      ⟨0, 0, 0, 0⟩, ⟨3500, 350, 100, 250⟩⟩
    [⟨1, "snack", (1507/10 : ℚ), 10, 5, 5⟩] rfl day_summary_ledger1507
  exact ⟨happ.2.2.2.2.1, happ.1⟩

/-! ### Claim C7 -/

theorem addTotals_zero_left (t : MacroTotals) : addTotals ⟨0, 0, 0, 0⟩ t = t := by
  unfold addTotals
  obtain ⟨a, b, c, d⟩ := t
  simp

theorem addTotals_assoc (a b c : MacroTotals) :
    addTotals (addTotals a b) c = addTotals a (addTotals b c) := by
  unfold addTotals
  obtain ⟨a1, a2, a3, a4⟩ := a
  obtain ⟨b1, b2, b3, b4⟩ := b
  obtain ⟨c1, c2, c3, c4⟩ := c
  simp [add_assoc]

theorem sumContributions_append (c : Client) (day : String)
    (xs ys : List MealPlanEntry) :
    sumContributions c day (xs ++ ys) =
      addTotals (sumContributions c day xs) (sumContributions c day ys) := by
  induction xs with
  | nil =>
    rw [show sumContributions c day [] = ⟨0, 0, 0, 0⟩ from rfl, addTotals_zero_left]
    rfl
  | cons a as ih =>
    show addTotals (plannedContribution c day a) (sumContributions c day (as ++ ys)) =
      addTotals (addTotals (plannedContribution c day a) (sumContributions c day as))
        (sumContributions c day ys)
    rw [ih, addTotals_assoc]

/-- Replace the meal-plan response of a client, keeping every other
operation (models injecting one extra entry into the backend data). -/
def withMealPlan (c : Client) (mp : Except String (List MealPlanEntry)) : Client :=
  { c with list_meal_plan := mp }

theorem consumedEntryFor_withMealPlan (c : Client) (mp : Except String (List MealPlanEntry))
    (day : String) : consumedEntryFor (withMealPlan c mp) day = consumedEntryFor c day := rfl

theorem sumContributions_withMealPlan (c : Client) (mp : Except String (List MealPlanEntry))
    (day : String) : sumContributions (withMealPlan c mp) day = sumContributions c day := rfl

/-- C7: adding one meal-plan entry for the day whose done-ish flag (probe of
`done`/`is_done`/`completed`) is falsy leaves the consumed entry list — and
hence the consumed block of the day summary — unchanged, while the planned
calorie total grows by exactly that entry's contribution (so it changes
whenever the contribution is nonzero): planned aggregates every entry of
the day regardless of done state, consumed only done-truthy ones. -/
theorem planned_ignores_done_filter (c : Client) (es : List MealPlanEntry)
    (e : MealPlanEntry) (day : String)
    (hlist : c.list_meal_plan = .ok (es ++ [e]))
    (hday : e.day = some day) (hdone : doneFlag e = false) :
    get_grocy_consumed_for_day c day =
      get_grocy_consumed_for_day (withMealPlan c (.ok es)) day ∧
    (get_grocy_planned_for_day c day).calories =
      (get_grocy_planned_for_day (withMealPlan c (.ok es)) day).calories +
        (plannedContribution c day e).calories ∧
    ((plannedContribution c day e).calories ≠ 0 →
      (get_grocy_planned_for_day c day).calories ≠
        (get_grocy_planned_for_day (withMealPlan c (.ok es)) day).calories) ∧
    (∀ (l : Ledger) (env : OsEnv) (s s' : DaySummary),
      get_day_summary c l env day = .ok s →
      get_day_summary (withMealPlan c (.ok es)) l env day = .ok s' →
      s.consumed = s'.consumed) := by
  have hskip : consumedEntryFor c day e = none := by
    unfold consumedEntryFor
    rw [if_neg (show ¬ e.day ≠ some day by rw [hday]; simp)]
    rw [if_pos (show ¬ doneFlag e = true by rw [hdone]; simp)]
  have h1 : get_grocy_consumed_for_day c day =
      (es ++ [e]).filterMap (consumedEntryFor c day) := by
    unfold get_grocy_consumed_for_day
    rw [hlist]
  have h2 : get_grocy_consumed_for_day (withMealPlan c (.ok es)) day =
      es.filterMap (consumedEntryFor c day) := by
    unfold get_grocy_consumed_for_day
    show es.filterMap (consumedEntryFor (withMealPlan c (.ok es)) day) = _
    rw [consumedEntryFor_withMealPlan]
  have hce : get_grocy_consumed_for_day c day =
      get_grocy_consumed_for_day (withMealPlan c (.ok es)) day := by
    rw [h1, h2, List.filterMap_append]
    simp [hskip]
  have hsum : sumContributions c day (es ++ [e]) =
      addTotals (sumContributions c day es) (plannedContribution c day e) := by
    rw [sumContributions_append]
    congr 1
    show addTotals (plannedContribution c day e) ⟨0, 0, 0, 0⟩ = plannedContribution c day e
    exact addTotals_zero_right _
  have hp1 : (get_grocy_planned_for_day c day).calories =
      (sumContributions c day (es ++ [e])).calories := by
    unfold get_grocy_planned_for_day
    rw [hlist]
  have hp2 : (get_grocy_planned_for_day (withMealPlan c (.ok es)) day).calories =
      (sumContributions c day es).calories := by
    unfold get_grocy_planned_for_day
    show (let t := sumContributions (withMealPlan c (.ok es)) day es
      (⟨t.calories, round2 t.carbs, round2 t.fats, round2 t.protein⟩ :
        MacroTotals)).calories = _
    rw [sumContributions_withMealPlan]
  have hplan : (get_grocy_planned_for_day c day).calories =
      (get_grocy_planned_for_day (withMealPlan c (.ok es)) day).calories +
        (plannedContribution c day e).calories := by
    rw [hp1, hp2, hsum]
    rfl
  refine ⟨hce, hplan, ?_, ?_⟩
  · intro hnz
    rw [hplan]
    omega
  · intro l env s s' hs hs'
    simp only [get_day_summary] at hs hs'
    cases hg : get_goal_macros env l with
    | error m =>
      rw [hg] at hs
      simp at hs
    | ok g =>
      rw [hg] at hs hs'
      simp only [Except.ok.injEq] at hs hs'
      subst hs
      subst hs'
      simp only []
      rw [hce]

/-- Nutrition userfields of recipe 7 in the closed C7 instance. -/
def recipeUfs7 : List (String × UVal) :=
  [("recipe_calories", .num 300), ("recipe_carbs", .num 40),
   ("recipe_fats", .num 10), ("recipe_proteins", .num 20)]

/-- A not-done meal-plan entry for recipe 7, 2 servings. -/
def entryNotDone : MealPlanEntry :=
  ⟨some "2025-03-01", some false, none, none, some 7, none, some (.num 2), none⟩

/-- Client whose meal plan holds only `entryNotDone`. -/
def clientC7 : Client :=
  { list_meal_plan := .ok [entryNotDone]
    get_recipe := fun _ => .ok ⟨some "Breakfast"⟩
    recipeUserfieldsPrimary := fun r => if r = 7 then .ok (some recipeUfs7) else .ok none
    recipeUserfieldsAlternate := fun _ => .ok none
    getProductObject := fun _ => .error "404"
    get_product_userfields := fun _ => .error "404" }

/-- Closed instance of `planned_ignores_done_filter`: the not-done entry
leaves consumed empty but makes the planned calories differ from the
entry-less client. -/
theorem planned_ignores_done_filter_witness :
    get_grocy_consumed_for_day clientC7 "2025-03-01" =
      get_grocy_consumed_for_day (withMealPlan clientC7 (.ok [])) "2025-03-01" ∧
    (get_grocy_planned_for_day clientC7 "2025-03-01").calories ≠
      (get_grocy_planned_for_day (withMealPlan clientC7 (.ok [])) "2025-03-01").calories := by
  have happ := planned_ignores_done_filter clientC7 [] entryNotDone "2025-03-01" rfl rfl rfl
  refine ⟨happ.1, happ.2.2.1 ?_⟩
  have h1 : plannedContribution clientC7 "2025-03-01" entryNotDone =
      ⟨pyInt ((300 : ℚ) * 2), (40 : ℚ) * 2, (10 : ℚ) * 2, (20 : ℚ) * 2⟩ := rfl
  rw [h1]
  show pyInt ((300 : ℚ) * 2) ≠ 0
  rw [show ((300 : ℚ)) * 2 = (((600 : ℤ)) : ℚ) by norm_num]
  rw [pyInt_of_int]
  norm_num

/-! ### Claim C8 -/

/-- The four macro sums of a consumed-entry list. -/
def entriesTotals (l : List ConsumedEntry) : MacroTotals :=
  ⟨(l.map (fun e => e.calories)).sum, (l.map (fun e => e.carbs)).sum,
   (l.map (fun e => e.fats)).sum, (l.map (fun e => e.protein)).sum⟩

theorem entriesTotals_append (xs ys : List ConsumedEntry) :
    entriesTotals (xs ++ ys) = addTotals (entriesTotals xs) (entriesTotals ys) := by
  unfold entriesTotals addTotals
  simp

theorem pyInt_zero : pyInt 0 = 0 := by
  unfold pyInt
  rw [if_pos le_rfl]
  exact Int.floor_zero

/-- C8: a done meal-plan entry whose product has no nutrition userfields
present (the userfield lookup returns an empty dict) contributes exactly 0
to all four consumed macro totals and to the planned totals, and does not
raise: the summary totals equal those computed with the entry omitted, and
summary construction succeeds for one exactly when it succeeds for the
other. -/
theorem missing_userfields_contribute_zero (c : Client) (es : List MealPlanEntry)
    (e : MealPlanEntry) (day : String) (pid : ℤ) (prod : ProductObj)
    (hlist : c.list_meal_plan = .ok (es ++ [e]))
    (hday : e.day = some day) (hdone : doneFlag e = true)
    (hrid : truthyId e.recipe_id = none)
    (hpid : truthyId e.product_id = some pid)
    (hprod : c.getProductObject pid = .ok prod)
    (hufs : c.get_product_userfields pid = .ok []) :
    entriesTotals (get_grocy_consumed_for_day c day) =
      entriesTotals (get_grocy_consumed_for_day (withMealPlan c (.ok es)) day) ∧
    get_grocy_planned_for_day c day =
      get_grocy_planned_for_day (withMealPlan c (.ok es)) day ∧
    (∀ (l : Ledger) (env : OsEnv) (s s' : DaySummary),
      get_day_summary c l env day = .ok s →
      get_day_summary (withMealPlan c (.ok es)) l env day = .ok s' →
      s.consumed.calories = s'.consumed.calories ∧
      s.consumed.carbs = s'.consumed.carbs ∧
      s.consumed.fats = s'.consumed.fats ∧
      s.consumed.protein = s'.consumed.protein) ∧
    (∀ (l : Ledger) (env : OsEnv),
      (get_day_summary c l env day).toOption.isSome =
        (get_day_summary (withMealPlan c (.ok es)) l env day).toOption.isSome) := by
  have hee : consumedEntryFor c day e =
      (match resolveMult e.amount with
       | some am => some ⟨"product", pid, prod.name.getD ("Product " ++ toString pid),
           some am, pyInt (_get_float [] "Calories_Per_Serving" 0 * am),
           _get_float [] "Carbs" 0 * am, _get_float [] "Fats" 0 * am,
           _get_float [] "Protein" 0 * am⟩
       | none => none) := by
    unfold consumedEntryFor
    rw [if_neg (show ¬ e.day ≠ some day by rw [hday]; simp)]
    rw [if_neg (show ¬ ¬ doneFlag e = true by rw [hdone]; simp)]
    rw [hrid, hpid]
    simp only []
    rw [hprod, hufs]
    cases ham : resolveMult e.amount with
    | none => rfl
    | some am => rfl
  have hzt : entriesTotals ([e].filterMap (consumedEntryFor c day)) = ⟨0, 0, 0, 0⟩ := by
    cases ham : resolveMult e.amount with
    | none =>
      rw [show [e].filterMap (consumedEntryFor c day) = [] by
        simp [List.filterMap, hee, ham]]
      rfl
    | some am =>
      rw [show [e].filterMap (consumedEntryFor c day) =
          [⟨"product", pid, prod.name.getD ("Product " ++ toString pid),
            some am, pyInt (_get_float [] "Calories_Per_Serving" 0 * am),
            _get_float [] "Carbs" 0 * am, _get_float [] "Fats" 0 * am,
            _get_float [] "Protein" 0 * am⟩] by
        simp [List.filterMap, hee, ham]]
      unfold entriesTotals
      have hf : ∀ key : String, _get_float [] key 0 = 0 := fun _ => rfl
      simp [hf, pyInt_zero]
  have hpe : plannedContribution c day e = ⟨0, 0, 0, 0⟩ := by
    unfold plannedContribution
    rw [if_neg (show ¬ e.day ≠ some day by rw [hday]; simp)]
    rw [hrid, hpid]
    simp only []
    rw [hufs]
    cases ham : resolveMult e.amount with
    | none => rfl
    | some am =>
      simp only []
      have hf : ∀ key : String, _get_float [] key 0 = 0 := fun _ => rfl
      simp [hf, pyInt_zero]
  have h1 : get_grocy_consumed_for_day c day =
      (es ++ [e]).filterMap (consumedEntryFor c day) := by
    unfold get_grocy_consumed_for_day
    rw [hlist]
  have h2 : get_grocy_consumed_for_day (withMealPlan c (.ok es)) day =
      es.filterMap (consumedEntryFor c day) := by
    unfold get_grocy_consumed_for_day
    show es.filterMap (consumedEntryFor (withMealPlan c (.ok es)) day) = _
    rw [consumedEntryFor_withMealPlan]
  have htot : entriesTotals (get_grocy_consumed_for_day c day) =
      entriesTotals (get_grocy_consumed_for_day (withMealPlan c (.ok es)) day) := by
    rw [h1, h2, List.filterMap_append, entriesTotals_append, hzt, addTotals_zero_right]
  have hplanned : get_grocy_planned_for_day c day =
      get_grocy_planned_for_day (withMealPlan c (.ok es)) day := by
    have hsum : sumContributions c day (es ++ [e]) = sumContributions c day es := by
      rw [sumContributions_append]
      rw [show sumContributions c day [e] = addTotals (plannedContribution c day e)
        ⟨0, 0, 0, 0⟩ from rfl]
      rw [hpe, addTotals_zero_right, addTotals_zero_right]
    unfold get_grocy_planned_for_day
    rw [hlist]
    show (let t := sumContributions c day (es ++ [e])
      (⟨t.calories, round2 t.carbs, round2 t.fats, round2 t.protein⟩ : MacroTotals)) =
      (match (withMealPlan c (.ok es)).list_meal_plan with
       | .error _ => (⟨0, 0, 0, 0⟩ : MacroTotals)
       | .ok entries =>
         let t := sumContributions (withMealPlan c (.ok es)) day entries
         ⟨t.calories, round2 t.carbs, round2 t.fats, round2 t.protein⟩)
    show (let t := sumContributions c day (es ++ [e])
      (⟨t.calories, round2 t.carbs, round2 t.fats, round2 t.protein⟩ : MacroTotals)) =
      (let t := sumContributions (withMealPlan c (.ok es)) day es
       (⟨t.calories, round2 t.carbs, round2 t.fats, round2 t.protein⟩ : MacroTotals))
    rw [sumContributions_withMealPlan, hsum]
  refine ⟨htot, hplanned, ?_, ?_⟩
  · intro l env s s' hs hs'
    simp only [get_day_summary] at hs hs'
    cases hg : get_goal_macros env l with
    | error m =>
      rw [hg] at hs
      simp at hs
    | ok g =>
      rw [hg] at hs hs'
      simp only [Except.ok.injEq] at hs hs'
      subst hs
      subst hs'
      have hcal := congrArg MacroTotals.calories htot
      have hcarbs := congrArg MacroTotals.carbs htot
      have hfats := congrArg MacroTotals.fats htot
      have hprot := congrArg MacroTotals.protein htot
      simp only [entriesTotals] at hcal hcarbs hfats hprot
      refine ⟨?_, ?_, ?_, ?_⟩ <;>
        simp [List.map_append, List.sum_append, hcal, hcarbs, hfats, hprot]
  · intro l env
    cases hg : get_goal_macros env l <;> simp only [get_day_summary, hg] <;> rfl

/-- A done product meal-plan entry (product 9, amount 1). -/
def entryDoneNoUfs : MealPlanEntry :=
  ⟨some "2025-03-01", some true, none, none, none, some 9, none, some (.num 1)⟩

/-- Client whose only meal-plan entry is `entryDoneNoUfs` and whose product
9 has no nutrition userfields (the lookup returns an empty dict). -/
def clientC8 : Client :=
  { list_meal_plan := .ok [entryDoneNoUfs]
    get_recipe := fun _ => .error "404"
    recipeUserfieldsPrimary := fun _ => .ok none
    recipeUserfieldsAlternate := fun _ => .ok none
    getProductObject := fun _ => .ok ⟨some "Mystery"⟩
    get_product_userfields := fun _ => .ok [] }

/-- Closed instance of `missing_userfields_contribute_zero`. -/
theorem missing_userfields_contribute_zero_witness :
    entriesTotals (get_grocy_consumed_for_day clientC8 "2025-03-01") =
      entriesTotals
        (get_grocy_consumed_for_day (withMealPlan clientC8 (.ok [])) "2025-03-01") ∧
    get_grocy_planned_for_day clientC8 "2025-03-01" =
      get_grocy_planned_for_day (withMealPlan clientC8 (.ok [])) "2025-03-01" := by
  have happ := missing_userfields_contribute_zero clientC8 [] entryDoneNoUfs
    "2025-03-01" 9 ⟨some "Mystery"⟩ rfl rfl rfl rfl rfl rfl rfl
  exact ⟨happ.1, happ.2.1⟩

/-! ### Claim C3 -/

theorem intMax_eq_max (a b : ℤ) : intMax a b = max a b := by
  unfold intMax
  rw [max_def]

theorem intMin_eq_min (a b : ℤ) : intMin a b = min a b := by
  unfold intMin
  rw [min_def]

theorem ceil_div_formula (n : ℕ) (limit : ℤ) (hl : 0 < limit) :
    ((n : ℤ) + limit - 1).fdiv limit = ⌈((n : ℚ)) / ((limit : ℤ) : ℚ)⌉ := by
  have hfd : ((n : ℤ) + limit - 1).fdiv limit = ((n : ℤ) + limit - 1) / limit :=
    Int.fdiv_eq_ediv _ (le_of_lt hl)
  rw [hfd]
  symm
  rw [Int.ceil_eq_iff]
  have hdm := Int.ediv_add_emod ((n : ℤ) + limit - 1) limit
  have hr0 := Int.emod_nonneg ((n : ℤ) + limit - 1) (ne_of_gt hl)
  have hrl := Int.emod_lt_of_pos ((n : ℤ) + limit - 1) hl
  have hq : (0 : ℚ) < ((limit : ℤ) : ℚ) := by exact_mod_cast hl
  constructor
  · rw [lt_div_iff hq]
    · have hz : ((((n : ℤ) + limit - 1) / limit - 1) * limit) < (n : ℤ) := by
        have hexp : (((n : ℤ) + limit - 1) / limit - 1) * limit =
            limit * (((n : ℤ) + limit - 1) / limit) - limit := by ring
        rw [hexp]
        linarith [hdm, hr0]
      calc (((((n : ℤ) + limit - 1) / limit : ℤ) : ℚ) - 1) * ((limit : ℤ) : ℚ)
          = (((((n : ℤ) + limit - 1) / limit - 1) * limit : ℤ) : ℚ) := by push_cast; ring
        _ < ((n : ℕ) : ℚ) := by exact_mod_cast hz
  · rw [div_le_iff hq]
    have hz2 : (n : ℤ) ≤ (((n : ℤ) + limit - 1) / limit) * limit := by
      have hexp : (((n : ℤ) + limit - 1) / limit) * limit =
          limit * (((n : ℤ) + limit - 1) / limit) := by ring
      rw [hexp]
      linarith [hdm, hrl]
    calc ((n : ℕ) : ℚ) = (((n : ℤ) : ℤ) : ℚ) := by push_cast; ring
      _ ≤ ((((n : ℤ) + limit - 1) / limit : ℤ) : ℚ) * ((limit : ℤ) : ℚ) := by
        exact_mod_cast hz2

/-- The day strings listed on a page (`None` on the error envelope). -/
def pageDaysOf : ApiResult PagedDays → Option (List String)
  | .payload p => some (p.days.map (fun s => s.day))
  | .errorEnvelope _ => none

/-- The `(total_pages, current_page, total_days)` triple of a page. -/
def pageMetaOf : ApiResult PagedDays → Option (ℤ × ℤ × ℤ)
  | .payload p => some (p.total_pages, p.current_page, p.total_days)
  | .errorEnvelope _ => none

/-- A bare meal-plan entry carrying only a day (enough for activity). -/
def mealDay (d : String) : MealPlanEntry := ⟨some d, none, none, none, none, none, none, none⟩

/-- Backend with meal-plan entries on ten distinct days. -/
def tenDayClient : Client :=
  { list_meal_plan := .ok [mealDay "2025-01-01", mealDay "2025-01-02",
      mealDay "2025-01-03", mealDay "2025-01-04", mealDay "2025-01-05",
      mealDay "2025-01-06", mealDay "2025-01-07", mealDay "2025-01-08",
      mealDay "2025-01-09", mealDay "2025-01-10"]
    get_recipe := fun _ => .error "404"
    recipeUserfieldsPrimary := fun _ => .ok none
    recipeUserfieldsAlternate := fun _ => .ok none
    getProductObject := fun _ => .error "404"
    get_product_userfields := fun _ => .error "404" }

/-- C3: for every activity-day list and every page request with positive
page size, the wrapper reports `total_days` = length of the full list,
`total_pages = ceil(total_days / limit)` with minimum 1, a page clamped
into `[0, total_pages-1]`, and the summaries of the days in slice
`[page*limit, page*limit+limit)` of the full descending list, skipping any
day whose summary computation fails; with 10 distinct active days and
limit 4, page 0 yields the 4 most recent days, page 2 the 2 oldest,
`total_pages` 3, and page 5 clamps to page 2. -/
theorem pagination_spec :
    (∀ (c : Client) (l : Ledger) (env : OsEnv) (page limit : ℤ), 0 < limit →
      ∀ p : PagedDays, get_recent_days c l env page limit = .payload p →
      p.total_days = ((get_recent_days_with_activity c l none).length : ℤ) ∧
      p.total_pages =
        max 1 ⌈(((get_recent_days_with_activity c l none).length : ℕ) : ℚ) /
          ((limit : ℤ) : ℚ)⌉ ∧
      p.current_page = max 0 (min page (p.total_pages - 1)) ∧
      p.days = (((get_recent_days_with_activity c l none).drop
          (p.current_page * limit).toNat).take limit.toNat).filterMap
        (fun d => (get_day_summary c l env d).toOption)) ∧
    pageDaysOf (get_recent_days tenDayClient emptyLedger goalsEnv 0 4) =
      some ["2025-01-10", "2025-01-09", "2025-01-08", "2025-01-07"] ∧
    pageDaysOf (get_recent_days tenDayClient emptyLedger goalsEnv 2 4) =
      some ["2025-01-02", "2025-01-01"] ∧
    pageMetaOf (get_recent_days tenDayClient emptyLedger goalsEnv 0 4) =
      some (3, 0, 10) ∧
    pageMetaOf (get_recent_days tenDayClient emptyLedger goalsEnv 5 4) =
      some (3, 2, 10) := by
  refine ⟨?_, by decide, by decide, by decide, by decide⟩
  intro c l env page limit hl p h
  simp only [get_recent_days] at h
  rw [if_neg (show ¬ limit = 0 by omega)] at h
  simp only [ApiResult.payload.injEq] at h
  subst h
  refine ⟨rfl, ?_, ?_, rfl⟩
  · show intMax 1 ((((get_recent_days_with_activity c l none).length : ℤ) + limit -
      1).fdiv limit) = _
    rw [intMax_eq_max, ceil_div_formula _ _ hl]
  · show intMax 0 (intMin page (intMax 1 ((((get_recent_days_with_activity c l
        none).length : ℤ) + limit - 1).fdiv limit) - 1)) = _
    rw [intMax_eq_max, intMin_eq_min]

/-- Closed instance of `pagination_spec` on an empty activity list. -/
theorem pagination_spec_witness :
    ((0 : ℤ) < 4) ∧
    (⟨[], 1, 0, 0⟩ : PagedDays).total_pages =
      max 1 ⌈((((get_recent_days_with_activity emptyClient emptyLedger none).length :
        ℕ)) : ℚ) / (((4 : ℤ)) : ℚ)⌉ ∧
    (⟨[], 1, 0, 0⟩ : PagedDays).total_days =
      ((get_recent_days_with_activity emptyClient emptyLedger none).length : ℤ) := by
  have happ := pagination_spec.1 emptyClient emptyLedger noEnv 0 4 (by norm_num)
    ⟨[], 1, 0, 0⟩ rfl
  exact ⟨by norm_num, happ.2.1, happ.1⟩
